import Mathlib

/-!
# Verification of the run-controller in `src/statics/script.js`

A shallow embedding of the browser-resident run controller of the
nasa-space-app-web client.  The module-level mutable variables of the
script (`isAnalyzing`, `buttonMode`, `websocket`, `sessionId`,
`analysisResults`, `currentProgressItem`) together with the DOM state the
controller reads and writes (location input value, checkbox group,
disabled flags, progress log, progress bar) are gathered into a `State`
record.  Every external callback of the script (button click, input
change, WebSocket message, WebSocket close, reconnection timer expiry,
fetch resolution) becomes one `Event`; `step` dispatches an event exactly
as the corresponding JavaScript handler does and additionally records the
externally visible side effects (channel opens/closes, the POST to
`/run-analysis`, toast notifications, timer scheduling, navigation) as a
list of `Effect`s.  A handler that would throw an uncaught exception
(dereferencing an `undefined` value) is modelled by `step` returning
`none`.

JavaScript's single-threaded event loop means the synchronous body of a
handler runs to completion before the next event; each `step` is one such
turn.  `startAnalysis` suspends at `await fetch(...)` after the request is
dispatched, so the portion up to and including the dispatch belongs to the
run-request turn and the `catch`/continuation belongs to a later
`Event.submitResult` turn.  Wall-clock timestamps shown in log entries and
purely cosmetic styling (colors, icons, animation) are not modelled.
-/

namespace NasaClient

/-- Kinds accepted by `showNotification(message, type)`. -/
inductive NotifKind
  | info
  | success
  | error
  | warning
  deriving DecidableEq, Repr

/-- The `buttonMode` variable: `'analysis'` or `'results'`. -/
inductive BtnMode
  | analysis
  | results
  deriving DecidableEq, Repr

/-- Severity tag of a progress-log entry (`progress-${type}` class). -/
inductive Severity
  | info
  | error
  | success
  deriving DecidableEq, Repr

/-- One entry of the progress log rendered in `#progressContainer`. -/
structure LogEntry where
  message : String
  severity : Severity
  deriving DecidableEq, Repr

/-- A WebSocket object as the controller sees it: the session id baked
into its URL `/ws/{sessionId}` and whether it is still open. -/
structure Channel where
  sid : String
  isOpen : Bool
  deriving DecidableEq, Repr

/-- The state of `#analysisProgressBar`: the counters and message of the
last `progress_update`; the displayed percentage is derived from them. -/
structure BarState where
  current : Nat
  total : Nat
  message : String
  deriving DecidableEq, Repr

/-- Inbound WebSocket messages, discriminated by their `type` field in
`handleWebSocketMessage`.  Messages with an unknown `type` fall through
the `switch` and are ignored, so they need no constructor. -/
inductive WsMessage
  | analysisStart (message : String)
  | progressUpdate (current total : Nat) (message : String)
  | analysisComplete (message : String)
  | analysisError (message : String)
  | allAnalysesComplete (message : String) (completed : List String)
  | errorMsg (message : String)
  deriving DecidableEq, Repr

/-- Externally visible side effects of one handler turn. -/
inductive Effect
  | openChannel (sid : String)
  | closeChannel
  | submit (location : String) (analyses : List String) (sid : String)
  | notify (kind : NotifKind) (message : String)
  | scheduleReconnect (delayMs : Nat)
  | navigate (url : String)
  deriving DecidableEq, Repr

/-- The whole mutable state the controller owns or reads.  Log entries
carry a unique reference (`Nat`) standing for the DOM node identity
returned by `showAnalysisProgress`; `currentProgressItem` holds such a
reference, exactly as the script holds a DOM element reference. -/
structure State where
  isAnalyzing : Bool
  buttonMode : BtnMode
  websocket : Option Channel
  sessionId : String
  analysisResults : List String
  currentProgressItem : Option Nat
  location : String
  checkboxes : List (String × Bool)
  locationDisabled : Bool
  selectAllDisabled : Bool
  checkboxesDisabled : Bool
  runBtnDisabled : Bool
  statusVisible : Bool
  statusSuccess : Bool
  progressLog : List (Nat × LogEntry)
  nextRef : Nat
  progressBar : Option BarState
  pendingReconnects : Nat
  pendingFetch : Bool
  deriving DecidableEq, Repr

/-- JavaScript `String.prototype.trim` restricted to the whitespace
characters that occur in practice (all inputs here are ASCII). -/
def isJsWhitespace (ch : Char) : Bool :=
  ch = ' ' ∨ ch = '\t' ∨ ch = '\n' ∨ ch = '\r'

/-- Model of `str.trim()`. -/
def jsTrim (str : String) : String :=
  ⟨((str.data.dropWhile isJsWhitespace).reverse.dropWhile isJsWhitespace).reverse⟩

/-- Model of a single character under `toLowerCase()` (ASCII range). -/
def jsLowerChar (ch : Char) : Char :=
  if 'A' ≤ ch ∧ ch ≤ 'Z' then Char.ofNat (ch.toNat + 32) else ch

/-- Model of `str.toLowerCase()`. -/
def jsToLower (str : String) : String :=
  ⟨str.data.map jsLowerChar⟩

/-- `Array.from(checkboxes).filter(cb => cb.checked).map(cb => cb.value)`. -/
def selectedValues (s : State) : List String :=
  (s.checkboxes.filter (fun cb => cb.2)).map (fun cb => cb.1)

/-- `locationInput.value.trim().length > 0`. -/
def hasLocationB (s : State) : Bool :=
  decide (jsTrim s.location ≠ "")

/-- `Array.from(checkboxes).some(cb => cb.checked)`. -/
def hasSelectedB (s : State) : Bool :=
  s.checkboxes.any (fun cb => cb.2)

/-- `updateRunAnalysisButton`: recomputes the action button's disabled
flag from the inputs, except while an analysis is running. -/
def updateRunAnalysisButton (s : State) : State :=
  if s.isAnalyzing then s
  else { s with runBtnDisabled := !(hasLocationB s && hasSelectedB s) }

/-- `showAnalysisProgress`: appends one entry to the progress log and
returns a reference to the freshly created DOM node. -/
def showAnalysisProgress (message : String) (sev : Severity) (s : State) :
    State × Nat :=
  ({ s with
      progressLog := s.progressLog ++ [(s.nextRef, ⟨message, sev⟩)],
      nextRef := s.nextRef + 1 },
    s.nextRef)

/-- Rewriting the `innerHTML` of the entry held by reference: the entry
whose node identity matches is replaced (message and severity `success`);
if the referenced node is no longer in the log (it was detached when the
container was cleared), the write lands on the detached node and the log
is unchanged. -/
def rewriteEntry (log : List (Nat × LogEntry)) (ref : Nat) (message : String) :
    List (Nat × LogEntry) :=
  log.map (fun p => if p.1 = ref then (p.1, ⟨message, Severity.success⟩) else p)

/-- `markProgressAsCompleted(message, progressItem)`: setting `innerHTML`
on `undefined` throws a `TypeError`, modelled as `none`. -/
def markProgressAsCompleted (message : String) (item : Option Nat) (s : State) :
    Option State :=
  match item with
  | none => none
  | some ref => some { s with progressLog := rewriteEntry s.progressLog ref message }

/-- `updateProgressBar(current, total, message)`: unconditionally
overwrites the bar state with the event's counters and message. -/
def updateProgressBar (current total : Nat) (message : String) (s : State) :
    State :=
  { s with progressBar := some ⟨current, total, message⟩ }

/-- The percentage the bar is set to: `(current / total) * 100`, taken
over the rationals (the script computes it in JavaScript numbers; no
rounding, clamping or monotonicity enforcement happens either way). -/
def percentage (current total : Nat) : ℚ :=
  ((current : ℚ) / (total : ℚ)) * 100

/-- The percentage currently displayed by a bar state. -/
def displayedPercentage (b : BarState) : ℚ :=
  percentage b.current b.total

/-- `connectWebSocket`: builds `/ws/{sessionId}` from the module-level
`sessionId` and opens a new WebSocket, replacing the `websocket`
variable.  Note: it performs no check of `isAnalyzing`. -/
def connectWebSocket (s : State) : State × List Effect :=
  ({ s with websocket := some ⟨s.sessionId, true⟩ },
    [Effect.openChannel s.sessionId])

/-- `resetForm`: returns to idle.  It closes the socket if the variable
is non-null, restores the submit-mode button, hides the status banner,
re-enables all inputs, removes the progress container and bar, and
recomputes the button's disabled flag.  It does not touch
`currentProgressItem` and clears no pending reconnection timer. -/
def resetForm (s : State) : State × List Effect :=
  let closeEffs := if s.websocket.isSome then [Effect.closeChannel] else []
  let s := { s with
    isAnalyzing := false, buttonMode := BtnMode.analysis, websocket := none,
    runBtnDisabled := false, statusVisible := false, statusSuccess := false,
    locationDisabled := false, selectAllDisabled := false,
    checkboxesDisabled := false,
    progressLog := [], progressBar := none }
  (updateRunAnalysisButton s, closeEffs)

/-- `handleAnalysisComplete(message)`: stores the result descriptors,
switches the button to results mode, closes the socket (nulling the
variable, so the close happens at most once), re-enables the inputs,
shows the success banner and a success toast. -/
def handleAnalysisComplete (message : String) (completed : List String)
    (s : State) : State × List Effect :=
  let closeEffs := if s.websocket.isSome then [Effect.closeChannel] else []
  let s := { s with
    isAnalyzing := false, analysisResults := completed,
    buttonMode := BtnMode.results, websocket := none,
    runBtnDisabled := false, statusVisible := true, statusSuccess := true,
    locationDisabled := false, selectAllDisabled := false,
    checkboxesDisabled := false }
  (s, closeEffs ++ [Effect.notify NotifKind.success message])

/-- `handleWebSocketMessage`: the `switch` on `message.type`. -/
def handleWebSocketMessage (m : WsMessage) (s : State) :
    Option (State × List Effect) :=
  match m with
  | WsMessage.analysisStart msg =>
      let r := showAnalysisProgress msg Severity.info s
      some ({ r.1 with currentProgressItem := some r.2 }, [])
  | WsMessage.progressUpdate cur tot msg =>
      some (updateProgressBar cur tot msg s, [])
  | WsMessage.analysisComplete msg =>
      (markProgressAsCompleted msg s.currentProgressItem s).map (fun t => (t, []))
  | WsMessage.analysisError msg =>
      some ((showAnalysisProgress msg Severity.error s).1, [])
  | WsMessage.allAnalysesComplete msg completed =>
      some (handleAnalysisComplete msg completed s)
  | WsMessage.errorMsg msg =>
      some ((resetForm s).1, Effect.notify NotifKind.error msg :: (resetForm s).2)

/-- The synchronous part of `startAnalysis(selectedAnalysis)` up to and
including the dispatch of the POST to `/run-analysis` (the function then
suspends at `await fetch`).  The request body reads
`locationInput.value.trim()` at dispatch time. -/
def startAnalysis (selected : List String) (s : State) : State × List Effect :=
  let conn := connectWebSocket { s with isAnalyzing := true }
  let t := { conn.1 with
    runBtnDisabled := true, statusVisible := true, statusSuccess := false,
    locationDisabled := true, selectAllDisabled := true,
    checkboxesDisabled := true,
    progressLog := [], progressBar := none,
    pendingFetch := true }
  (t, conn.2 ++ [Effect.submit (jsTrim t.location) selected t.sessionId])

/-- The validation toast text of `runAnalysis`. -/
def validationMessage : String :=
  "Please enter a location and select at least one analysis option"

/-- The warning toast text for an unsupported location. -/
def unsupportedLocationMessage : String :=
  "Currently, only Narayanganj is supported as a location"

/-- `runAnalysis`: guard against re-entry and results mode, validate the
trimmed location and the selection, correct an unsupported location in
place with a warning, then start the analysis. -/
def runAnalysis (s : State) : State × List Effect :=
  if s.isAnalyzing = true ∨ s.buttonMode = BtnMode.results then (s, [])
  else
    let location := jsTrim s.location
    let selected := selectedValues s
    if location = "" ∨ selected = [] then
      (s, [Effect.notify NotifKind.error validationMessage])
    else
      let corrected :=
        if jsToLower location ≠ "narayanganj" then
          ({ s with location := "Narayanganj" },
            [Effect.notify NotifKind.warning unsupportedLocationMessage])
        else (s, [])
      let run := startAnalysis selected corrected.1
      (run.1, corrected.2 ++ run.2)

/-- The results-viewer URL `showResults` navigates to. -/
def resultsUrl (sid : String) : String :=
  "/results-viewer?session=" ++ sid

/-- `showResults`: one-way navigation parameterized by the session id. -/
def showResults (s : State) : State × List Effect :=
  (s, [Effect.navigate (resultsUrl s.sessionId)])

/-- `checkboxes[i].checked = b`, leaving the value attribute alone. -/
def setCheckboxAt (l : List (String × Bool)) (i : Nat) (b : Bool) :
    List (String × Bool) :=
  match l.get? i with
  | some cb => l.set i (cb.1, b)
  | none => l

/-- One external stimulus delivered to the page. -/
inductive Event
  | clickRun
  | setLocation (v : String)
  | setCheckbox (i : Nat) (checked : Bool)
  | chanMessage (m : WsMessage)
  | chanClose
  | timerFire
  | submitResult (ok : Bool) (errMsg : String)
  deriving DecidableEq, Repr

/-- One event-loop turn.  `none` means the handler threw an uncaught
exception.  `chanMessage`/`chanClose` are delivered only while the
current socket is open (a closed or replaced socket delivers nothing);
`timerFire` is the expiry of one reconnection timeout scheduled by
`websocket.onclose`, whose callback is `connectWebSocket` itself —
executed with no state guard; `submitResult` is the resolution of the
pending `fetch` (`ok = false` covers both a non-2xx status, which
`startAnalysis` turns into a thrown `Error`, and a network failure). -/
def step (s : State) (e : Event) : Option (State × List Effect) :=
  match e with
  | Event.clickRun =>
      if s.runBtnDisabled then some (s, [])
      else if s.buttonMode = BtnMode.results then some (showResults s)
      else some (runAnalysis s)
  | Event.setLocation v =>
      if s.locationDisabled then some (s, [])
      else some (updateRunAnalysisButton { s with location := v }, [])
  | Event.setCheckbox i b =>
      if s.checkboxesDisabled then some (s, [])
      else
        some (updateRunAnalysisButton
          { s with checkboxes := setCheckboxAt s.checkboxes i b }, [])
  | Event.chanMessage m =>
      match s.websocket with
      | some c => if c.isOpen then handleWebSocketMessage m s else some (s, [])
      | none => some (s, [])
  | Event.chanClose =>
      match s.websocket with
      | some c =>
          if c.isOpen then
            let s := { s with websocket := some { c with isOpen := false } }
            if s.isAnalyzing then
              some ({ s with pendingReconnects := s.pendingReconnects + 1 },
                [Effect.scheduleReconnect 2000])
            else some (s, [])
          else some (s, [])
      | none => some (s, [])
  | Event.timerFire =>
      if s.pendingReconnects > 0 then
        some (connectWebSocket { s with pendingReconnects := s.pendingReconnects - 1 })
      else some (s, [])
  | Event.submitResult ok errMsg =>
      if s.pendingFetch then
        let t := { s with pendingFetch := false }
        if ok then some (t, [])
        else
          some ((resetForm t).1, Effect.notify NotifKind.error
            ("Error starting analysis: " ++ errMsg) :: (resetForm t).2)
      else some (s, [])

/-- Runs a list of events, collecting each turn's effects; `none` as soon
as one handler faults. -/
def runTrace : State → List Event → Option (State × List (Event × List Effect))
  | s, [] => some (s, [])
  | s, e :: es =>
      match step s e with
      | none => none
      | some (s', effs) =>
          match runTrace s' es with
          | none => none
          | some (s'', rest) => some (s'', (e, effs) :: rest)

/-- The page state right after `DOMContentLoaded`: the button's disabled
flag was computed while the location input was still empty (the script
assigns `"Narayanganj"` afterwards, which fires no `input` event), so the
button starts disabled; every checkbox starts unchecked. -/
def initState (sid : String) (analysisValues : List String) : State :=
  { isAnalyzing := false, buttonMode := BtnMode.analysis, websocket := none,
    sessionId := sid, analysisResults := [], currentProgressItem := none,
    location := "Narayanganj",
    checkboxes := analysisValues.map (fun v => (v, false)),
    locationDisabled := false, selectAllDisabled := false,
    checkboxesDisabled := false,
    runBtnDisabled := true, statusVisible := false, statusSuccess := false,
    progressLog := [], nextRef := 0, progressBar := none,
    pendingReconnects := 0, pendingFetch := false }

/-- The spec's observable controller states.  `Submitting` is not
observable at event-loop granularity: the channel open and the submission
dispatch both happen inside the synchronous part of the run-request turn,
so by the next turn the controller is already `Running`. -/
inductive SpecState
  | idle
  | running
  | resultsReady
  deriving DecidableEq, Repr

/-- Projection of the implementation state onto the spec's states. -/
def specState (s : State) : SpecState :=
  if s.isAnalyzing then SpecState.running
  else if s.buttonMode = BtnMode.results then SpecState.resultsReady
  else SpecState.idle

/-- The session identifier a submission effect carries, if any. -/
def submitSid : Effect → Option String
  | Effect.submit _ _ sid => some sid
  | _ => none

/-- An effect is tagged consistently with a given session identifier:
channel opens and submissions carry exactly it, results navigation embeds
it, and the remaining effects carry no identifier. -/
def effectSidOk (sid : String) : Effect → Prop
  | Effect.openChannel x => x = sid
  | Effect.submit _ _ x => x = sid
  | Effect.navigate url => url = resultsUrl sid
  | _ => True

/-- A concrete page-load state: one analysis kind `"flood"` offered,
session identifier `"session_1"`. -/
def demoInit : State := initState "session_1" ["flood"]

/-- The state reached from `demoInit` by checking the box and clicking
the run button: a run is in flight, the socket is open, the fetch is
pending. -/
def demoRunning : State :=
  { isAnalyzing := true, buttonMode := BtnMode.analysis,
    websocket := some ⟨"session_1", true⟩, sessionId := "session_1",
    analysisResults := [], currentProgressItem := none,
    location := "Narayanganj", checkboxes := [("flood", true)],
    locationDisabled := true, selectAllDisabled := true,
    checkboxesDisabled := true,
    runBtnDisabled := true, statusVisible := true, statusSuccess := false,
    progressLog := [], nextRef := 0, progressBar := none,
    pendingReconnects := 0, pendingFetch := true }

/-- `demoRunning` after one `analysis_start` message was handled: the log
holds one entry and the controller holds a reference to it. -/
def demoWithLog : State :=
  { demoRunning with
    progressLog := [(0, ⟨"Starting flood analysis", Severity.info⟩)],
    currentProgressItem := some 0, nextRef := 1 }

/-- An idle state whose location input holds an unsupported value. -/
def demoWrongLocation : State :=
  { demoInit with
    location := "Dhaka",
    checkboxes := [("flood", true)], runBtnDisabled := false }

/-- Events of the stale-timer scenario: check a box, start a run, the
channel drops while running (scheduling the 2000 ms reconnect), the
submission fails (resetting to idle), then the timer fires. -/
def c1Events : List Event :=
  [Event.setCheckbox 0 true, Event.clickRun, Event.chanClose,
   Event.submitResult false "HTTP error! status: 500", Event.timerFire]

/-- Events of the session-reuse scenario: a first run ends in a
submission failure (reset to idle), then a second run is started in the
same page instance. -/
def c6Events : List Event :=
  [Event.setCheckbox 0 true, Event.clickRun,
   Event.submitResult false "HTTP error! status: 500", Event.clickRun]

/-- Events of the stale-reference scenario: a first run handles one
`analysis_start`, a fatal `error` resets to idle, a second run is started
and its very first channel message is an `analysis_complete`. -/
def c10Events : List Event :=
  [Event.setCheckbox 0 true, Event.clickRun,
   Event.chanMessage (WsMessage.analysisStart "Starting flood analysis"),
   Event.chanMessage (WsMessage.errorMsg "backend failure"),
   Event.clickRun,
   Event.chanMessage (WsMessage.analysisComplete "Flood analysis done")]

/-! ## Helper lemmas -/

theorem runAnalysis_sid (s : State) :
    (runAnalysis s).1.sessionId = s.sessionId ∧
    ∀ eff ∈ (runAnalysis s).2, effectSidOk s.sessionId eff := by
  by_cases h1 : s.isAnalyzing = true ∨ s.buttonMode = BtnMode.results
  · simp [runAnalysis, h1]
  · by_cases h2 : jsTrim s.location = "" ∨ selectedValues s = []
    · simp [runAnalysis, h1, h2, effectSidOk]
    · by_cases h3 : jsToLower (jsTrim s.location) ≠ "narayanganj"
      · simp [runAnalysis, h1, h2, h3, startAnalysis, connectWebSocket,
          effectSidOk]
      · simp [runAnalysis, h1, h2, h3, startAnalysis, connectWebSocket,
          effectSidOk]

theorem resetForm_sid (s : State) :
    (resetForm s).1.sessionId = s.sessionId ∧
    ∀ eff ∈ (resetForm s).2, effectSidOk s.sessionId eff := by
  by_cases hw : s.websocket.isSome
  · simp [resetForm, updateRunAnalysisButton, hw, effectSidOk]
  · simp [resetForm, updateRunAnalysisButton, hw, effectSidOk]

theorem handleWsMessage_sid (m : WsMessage) (s s' : State)
    (effs : List Effect) (h : handleWebSocketMessage m s = some (s', effs)) :
    s'.sessionId = s.sessionId ∧ ∀ eff ∈ effs, effectSidOk s.sessionId eff := by
  cases m with
  | analysisStart msg =>
      simp [handleWebSocketMessage, showAnalysisProgress] at h
      obtain ⟨h1, h2⟩ := h
      subst h1; subst h2; simp
  | progressUpdate cur tot msg =>
      simp [handleWebSocketMessage, updateProgressBar] at h
      obtain ⟨h1, h2⟩ := h
      subst h1; subst h2; simp
  | analysisComplete msg =>
      cases hr : s.currentProgressItem with
      | none => simp [handleWebSocketMessage, markProgressAsCompleted, hr] at h
      | some ref =>
          simp [handleWebSocketMessage, markProgressAsCompleted, hr] at h
          obtain ⟨h1, h2⟩ := h
          subst h1; subst h2; simp
  | analysisError msg =>
      simp [handleWebSocketMessage, showAnalysisProgress] at h
      obtain ⟨h1, h2⟩ := h
      subst h1; subst h2; simp
  | allAnalysesComplete msg completed =>
      simp [handleWebSocketMessage, handleAnalysisComplete] at h
      by_cases hw : s.websocket.isSome
      · simp [hw] at h
        obtain ⟨h1, h2⟩ := h
        subst h1; subst h2
        simp [effectSidOk]
      · simp [hw] at h
        obtain ⟨h1, h2⟩ := h
        subst h1; subst h2
        simp [effectSidOk]
  | errorMsg msg =>
      simp [handleWebSocketMessage] at h
      obtain ⟨h1, h2⟩ := h
      subst h1; subst h2
      have hrf := resetForm_sid s
      refine ⟨hrf.1, ?_⟩
      intro eff heff
      rcases List.mem_cons.mp heff with h' | h'
      · subst h'; simp [effectSidOk]
      · exact hrf.2 eff h'

theorem step_sid (s : State) (e : Event) (s' : State) (effs : List Effect)
    (h : step s e = some (s', effs)) :
    s'.sessionId = s.sessionId ∧ ∀ eff ∈ effs, effectSidOk s.sessionId eff := by
  cases e with
  | clickRun =>
      by_cases hd : s.runBtnDisabled
      · simp [step, hd] at h
        obtain ⟨h1, h2⟩ := h; subst h1; subst h2; simp
      · by_cases hm : s.buttonMode = BtnMode.results
        · simp [step, hd, hm, showResults] at h
          obtain ⟨h1, h2⟩ := h; subst h1; subst h2
          simp [effectSidOk]
        · simp [step, hd, hm] at h
          rw [Prod.ext_iff] at h
          obtain ⟨h1, h2⟩ := h
          subst h1; subst h2
          exact runAnalysis_sid s
  | setLocation v =>
      by_cases hd : s.locationDisabled
      · simp [step, hd] at h
        obtain ⟨h1, h2⟩ := h; subst h1; subst h2; simp
      · simp [step, hd, updateRunAnalysisButton] at h
        obtain ⟨h1, h2⟩ := h
        subst h1; subst h2
        refine ⟨?_, by simp⟩
        split <;> simp
  | setCheckbox i b =>
      by_cases hd : s.checkboxesDisabled
      · simp [step, hd] at h
        obtain ⟨h1, h2⟩ := h; subst h1; subst h2; simp
      · simp [step, hd, updateRunAnalysisButton] at h
        obtain ⟨h1, h2⟩ := h
        subst h1; subst h2
        refine ⟨?_, by simp⟩
        split <;> simp
  | chanMessage m =>
      cases hw : s.websocket with
      | none =>
          simp [step, hw] at h
          obtain ⟨h1, h2⟩ := h; subst h1; subst h2; simp
      | some c =>
          by_cases ho : c.isOpen
          · simp [step, hw, ho] at h
            exact handleWsMessage_sid m s s' effs h
          · simp [step, hw, ho] at h
            obtain ⟨h1, h2⟩ := h; subst h1; subst h2; simp
  | chanClose =>
      cases hw : s.websocket with
      | none =>
          simp [step, hw] at h
          obtain ⟨h1, h2⟩ := h; subst h1; subst h2; simp
      | some c =>
          by_cases ho : c.isOpen
          · by_cases ha : s.isAnalyzing
            · simp [step, hw, ho, ha] at h
              obtain ⟨h1, h2⟩ := h; subst h1; subst h2
              simp [effectSidOk]
            · simp [step, hw, ho, ha] at h
              obtain ⟨h1, h2⟩ := h; subst h1; subst h2; simp
          · simp [step, hw, ho] at h
            obtain ⟨h1, h2⟩ := h; subst h1; subst h2; simp
  | timerFire =>
      by_cases hp : s.pendingReconnects > 0
      · simp [step, hp, connectWebSocket] at h
        obtain ⟨h1, h2⟩ := h; subst h1; subst h2
        simp [effectSidOk]
      · simp [step, hp] at h
        obtain ⟨h1, h2⟩ := h; subst h1; subst h2; simp
  | submitResult ok errMsg =>
      by_cases hp : s.pendingFetch
      · cases ok with
        | true =>
            simp [step, hp] at h
            obtain ⟨h1, h2⟩ := h; subst h1; subst h2; simp
        | false =>
            simp [step, hp] at h
            obtain ⟨h1, h2⟩ := h
            subst h1; subst h2
            have hrf := resetForm_sid { s with pendingFetch := false }
            refine ⟨hrf.1, ?_⟩
            intro eff heff
            rcases List.mem_cons.mp heff with h' | h'
            · subst h'; simp [effectSidOk]
            · exact hrf.2 eff h'
      · simp [step, hp] at h
        obtain ⟨h1, h2⟩ := h; subst h1; subst h2; simp

theorem runTrace_sid (s : State) (es : List Event) (s' : State)
    (log : List (Event × List Effect)) (h : runTrace s es = some (s', log)) :
    s'.sessionId = s.sessionId ∧
    ∀ p ∈ log, ∀ eff ∈ p.2, effectSidOk s.sessionId eff := by
  induction es generalizing s log with
  | nil =>
      simp [runTrace] at h
      obtain ⟨h1, h2⟩ := h
      subst h1; subst h2
      simp
  | cons e es ih =>
      unfold runTrace at h
      cases hstep : step s e with
      | none => rw [hstep] at h; cases h
      | some r =>
          obtain ⟨t, effs⟩ := r
          rw [hstep] at h
          dsimp only at h
          cases hrest : runTrace t es with
          | none => rw [hrest] at h; cases h
          | some r2 =>
              obtain ⟨s'', log'⟩ := r2
              rw [hrest] at h
              simp at h
              obtain ⟨h1, h2⟩ := h
              subst h1; subst h2
              obtain ⟨hsid, heffs⟩ := step_sid s e t effs hstep
              obtain ⟨ih1, ih2⟩ := ih t log' hrest
              refine ⟨ih1.trans hsid, ?_⟩
              intro p hp eff heff
              rcases List.mem_cons.mp hp with h' | h'
              · subst h'
                exact heffs eff heff
              · have := ih2 p h' eff heff
                rwa [hsid] at this

theorem resetForm_currentItem (s : State) :
    (resetForm s).1.currentProgressItem = s.currentProgressItem := by
  by_cases hw : s.websocket.isSome <;>
    simp [resetForm, updateRunAnalysisButton, hw]

theorem runAnalysis_currentItem (s : State) :
    (runAnalysis s).1.currentProgressItem = s.currentProgressItem := by
  by_cases h1 : s.isAnalyzing = true ∨ s.buttonMode = BtnMode.results
  · simp [runAnalysis, h1]
  · by_cases h2 : jsTrim s.location = "" ∨ selectedValues s = []
    · simp [runAnalysis, h1, h2]
    · by_cases h3 : jsToLower (jsTrim s.location) ≠ "narayanganj" <;>
        simp [runAnalysis, h1, h2, h3, startAnalysis, connectWebSocket]

theorem step_currentItem (s : State) (e : Event) (s' : State)
    (effs : List Effect) (h : step s e = some (s', effs))
    (hne : ∀ m, e ≠ Event.chanMessage (WsMessage.analysisStart m)) :
    s'.currentProgressItem = s.currentProgressItem := by
  cases e with
  | clickRun =>
      by_cases hd : s.runBtnDisabled
      · simp [step, hd] at h
        obtain ⟨h1, h2⟩ := h; subst h1; rfl
      · by_cases hm : s.buttonMode = BtnMode.results
        · simp [step, hd, hm, showResults] at h
          obtain ⟨h1, h2⟩ := h; subst h1; rfl
        · simp [step, hd, hm] at h
          rw [Prod.ext_iff] at h
          obtain ⟨h1, h2⟩ := h
          subst h1
          exact runAnalysis_currentItem s
  | setLocation v =>
      by_cases hd : s.locationDisabled
      · simp [step, hd] at h
        obtain ⟨h1, h2⟩ := h; subst h1; rfl
      · simp [step, hd, updateRunAnalysisButton] at h
        obtain ⟨h1, h2⟩ := h
        subst h1
        split <;> rfl
  | setCheckbox i b =>
      by_cases hd : s.checkboxesDisabled
      · simp [step, hd] at h
        obtain ⟨h1, h2⟩ := h; subst h1; rfl
      · simp [step, hd, updateRunAnalysisButton] at h
        obtain ⟨h1, h2⟩ := h
        subst h1
        split <;> rfl
  | chanMessage m =>
      cases hw : s.websocket with
      | none =>
          simp [step, hw] at h
          obtain ⟨h1, h2⟩ := h; subst h1; rfl
      | some c =>
          by_cases ho : c.isOpen
          · simp [step, hw, ho] at h
            cases m with
            | analysisStart msg => exact absurd rfl (hne msg)
            | progressUpdate cur tot msg =>
                simp [handleWebSocketMessage, updateProgressBar] at h
                obtain ⟨h1, h2⟩ := h; subst h1; rfl
            | analysisComplete msg =>
                cases hr : s.currentProgressItem with
                | none =>
                    simp [handleWebSocketMessage, markProgressAsCompleted,
                      hr] at h
                | some ref =>
                    simp [handleWebSocketMessage, markProgressAsCompleted,
                      hr] at h
                    obtain ⟨h1, h2⟩ := h; subst h1
                    simp [hr]
            | analysisError msg =>
                simp [handleWebSocketMessage, showAnalysisProgress] at h
                obtain ⟨h1, h2⟩ := h; subst h1; rfl
            | allAnalysesComplete msg completed =>
                simp [handleWebSocketMessage, handleAnalysisComplete] at h
                by_cases hws : s.websocket.isSome <;> simp [hws] at h <;>
                  obtain ⟨h1, h2⟩ := h <;> subst h1 <;> rfl
            | errorMsg msg =>
                simp [handleWebSocketMessage] at h
                obtain ⟨h1, h2⟩ := h
                subst h1
                exact resetForm_currentItem s
          · simp [step, hw, ho] at h
            obtain ⟨h1, h2⟩ := h; subst h1; rfl
  | chanClose =>
      cases hw : s.websocket with
      | none =>
          simp [step, hw] at h
          obtain ⟨h1, h2⟩ := h; subst h1; rfl
      | some c =>
          by_cases ho : c.isOpen
          · by_cases ha : s.isAnalyzing <;> simp [step, hw, ho, ha] at h <;>
              obtain ⟨h1, h2⟩ := h <;> subst h1 <;> rfl
          · simp [step, hw, ho] at h
            obtain ⟨h1, h2⟩ := h; subst h1; rfl
  | timerFire =>
      by_cases hp : s.pendingReconnects > 0 <;>
        simp [step, hp, connectWebSocket] at h <;>
        obtain ⟨h1, h2⟩ := h <;> subst h1 <;> rfl
  | submitResult ok errMsg =>
      by_cases hp : s.pendingFetch
      · cases ok with
        | true =>
            simp [step, hp] at h
            obtain ⟨h1, h2⟩ := h; subst h1; rfl
        | false =>
            simp [step, hp] at h
            obtain ⟨h1, h2⟩ := h
            subst h1
            exact resetForm_currentItem { s with pendingFetch := false }
      · simp [step, hp] at h
        obtain ⟨h1, h2⟩ := h; subst h1; rfl

theorem runTrace_noStart_currentItem (s : State) (es : List Event)
    (s' : State) (log : List (Event × List Effect))
    (h : runTrace s es = some (s', log))
    (hNoStart : ∀ m, Event.chanMessage (WsMessage.analysisStart m) ∉ es) :
    s'.currentProgressItem = s.currentProgressItem := by
  induction es generalizing s log with
  | nil =>
      simp [runTrace] at h
      obtain ⟨h1, h2⟩ := h
      subst h1; rfl
  | cons e es ih =>
      unfold runTrace at h
      cases hstep : step s e with
      | none => rw [hstep] at h; cases h
      | some r =>
          obtain ⟨t, effs⟩ := r
          rw [hstep] at h
          dsimp only at h
          cases hrest : runTrace t es with
          | none => rw [hrest] at h; cases h
          | some r2 =>
              obtain ⟨s'', log'⟩ := r2
              rw [hrest] at h
              simp at h
              obtain ⟨h1, h2⟩ := h
              subst h1; subst h2
              have hstepC := step_currentItem s e t effs hstep
                (fun m hm => hNoStart m (by rw [hm]; exact List.mem_cons_self _ _))
              have ihC := ih t log' hrest
                (fun m hm => hNoStart m (List.mem_cons_of_mem _ hm))
              exact ihC.trans hstepC

/-! ## Claim theorems -/

/-- C1: the claim says that after a reset to Idle no channel open call
occurs until a new run is started, even when a reconnection timer
scheduled during Running is still pending.  The code violates it:
`resetForm` clears no timeout and the timer's callback is
`connectWebSocket`, which opens a socket without checking `isAnalyzing`.
This theorem evaluates the controller on the violating trace: check a
box, start a run, the channel drops while Running (scheduling the
2000 ms reconnect), the submission fails with HTTP 500 (reset to Idle,
confirmed by the `specState` conjunct after four events), and then the
stale timer fires — the fifth turn emits `openChannel "session_1"`
although the controller is Idle and no new run was started. -/
theorem c1_stale_timer_reopens_channel :
    (runTrace demoInit (c1Events.take 4)).map (fun r => specState r.1) =
      some SpecState.idle ∧
    (runTrace demoInit c1Events).map (fun r => r.2.map Prod.snd) =
      some [[],
            [Effect.openChannel "session_1",
             Effect.submit "Narayanganj" ["flood"] "session_1"],
            [Effect.scheduleReconnect 2000],
            [Effect.notify NotifKind.error
               "Error starting analysis: HTTP error! status: 500",
             Effect.closeChannel],
            [Effect.openChannel "session_1"]] := ⟨rfl, rfl⟩

/-- C2: a channel close observed while Running (`isAnalyzing`) schedules
exactly one reconnection — the turn's only effect is a single
`scheduleReconnect 2000` and the pending-timer count rises by one — and
the open call issued when that timer fires carries the identical session
identifier as the closed channel; a close observed in any other state
schedules nothing and has no effect beyond the socket being closed. -/
theorem c2_close_while_running_reconnects (s : State) (c : Channel)
    (hw : s.websocket = some c) (ho : c.isOpen = true)
    (hsid : c.sid = s.sessionId) :
    (s.isAnalyzing = true →
      step s Event.chanClose =
        some ({ s with
                 websocket := some ⟨c.sid, false⟩,
                 pendingReconnects := s.pendingReconnects + 1 },
              [Effect.scheduleReconnect 2000]) ∧
      step { s with
              websocket := some ⟨c.sid, false⟩,
              pendingReconnects := s.pendingReconnects + 1 }
          Event.timerFire =
        some ({ s with websocket := some ⟨c.sid, true⟩ },
              [Effect.openChannel c.sid])) ∧
    (s.isAnalyzing = false →
      step s Event.chanClose =
        some ({ s with websocket := some ⟨c.sid, false⟩ }, [])) := by
  constructor
  · intro hA
    constructor
    · simp [step, hw, ho, hA]
    · simp [step, connectWebSocket, hsid]
  · intro hA
    simp [step, hw, ho, hA]

/-- Witness for C2 at the concrete in-flight state `demoRunning`. -/
theorem c2_witness :
    step demoRunning Event.chanClose =
      some ({ demoRunning with
               websocket := some ⟨"session_1", false⟩,
               pendingReconnects := 1 },
            [Effect.scheduleReconnect 2000]) :=
  ((c2_close_while_running_reconnects demoRunning ⟨"session_1", true⟩
      rfl rfl rfl).1 rfl).1

/-- C3: invoking the start-run operation (`runAnalysis`) is a no-op —
same state, no effects at all — unless the controller is exactly Idle;
and from Idle with an empty trimmed location or an empty selection it
emits only the validation notification, so no channel open and no
submission occurs and the state (hence Idle) is unchanged. -/
theorem c3_start_run_only_from_idle (s : State) :
    (specState s ≠ SpecState.idle → runAnalysis s = (s, [])) ∧
    (specState s = SpecState.idle →
      jsTrim s.location = "" ∨ selectedValues s = [] →
      runAnalysis s =
        (s, [Effect.notify NotifKind.error validationMessage])) := by
  constructor
  · intro h
    unfold specState at h
    unfold runAnalysis
    split
    · rfl
    · rename_i hcond
      push_neg at hcond
      simp [hcond.1, hcond.2] at h
  · intro h hval
    unfold specState at h
    unfold runAnalysis
    split
    · rename_i hcond
      rcases hcond with hA | hM
      · simp [hA] at h
      · rcases hA : s.isAnalyzing with _ | _
        · simp [hA, hM] at h
        · simp [hA] at h
    · simp [hval]

/-- Witness for C3 at the idle page-load state, where no analysis kind
is selected yet. -/
theorem c3_witness :
    runAnalysis demoInit =
      (demoInit, [Effect.notify NotifKind.error validationMessage]) :=
  (c3_start_run_only_from_idle demoInit).2 rfl (Or.inr rfl)

/-- C4: on a `run-finished` (`all_analyses_complete`) message while
Running with an open channel, the controller stores the event's result
descriptors, emits exactly one `closeChannel` (the handle is then gone:
`websocket = none`), switches the action control to results/navigate
mode, re-enables the location field and selection controls, processes no
further channel message for that session (every subsequent message turn
leaves the state unchanged with no effects), and a click now navigates
to the results view. -/
theorem c4_run_finished (s : State) (c : Channel) (msg : String)
    (completed : List String)
    (hw : s.websocket = some c) (ho : c.isOpen = true)
    (hrun : s.isAnalyzing = true) :
    ∃ s',
      step s (Event.chanMessage (WsMessage.allAnalysesComplete msg completed)) =
        some (s', [Effect.closeChannel, Effect.notify NotifKind.success msg]) ∧
      s'.analysisResults = completed ∧
      s'.websocket = none ∧
      s'.buttonMode = BtnMode.results ∧
      s'.isAnalyzing = false ∧
      s'.locationDisabled = false ∧ s'.selectAllDisabled = false ∧
      s'.checkboxesDisabled = false ∧ s'.runBtnDisabled = false ∧
      (∀ m, step s' (Event.chanMessage m) = some (s', [])) ∧
      step s' Event.clickRun =
        some (s', [Effect.navigate (resultsUrl s.sessionId)]) := by
  refine ⟨{ s with
    isAnalyzing := false, analysisResults := completed,
    buttonMode := BtnMode.results, websocket := none,
    runBtnDisabled := false, statusVisible := true, statusSuccess := true,
    locationDisabled := false, selectAllDisabled := false,
    checkboxesDisabled := false },
    ?_, rfl, rfl, rfl, rfl, rfl, rfl, rfl, rfl, ?_, ?_⟩
  · simp [step, hw, ho, handleWebSocketMessage, handleAnalysisComplete]
  · intro m
    simp [step]
  · simp [step, showResults]

/-- Witness for C4 at the concrete in-flight state `demoRunning`. -/
theorem c4_witness :
    (step demoRunning
        (Event.chanMessage (WsMessage.allAnalysesComplete "done" ["r1"]))).map
      (fun r => r.2) =
      some [Effect.closeChannel, Effect.notify NotifKind.success "done"] := by
  obtain ⟨s', h, _⟩ :=
    c4_run_finished demoRunning ⟨"session_1", true⟩ "done" ["r1"] rfl rfl rfl
  rw [h]
  rfl

/-- C5: when the pending submission resolves as a failure, the turn
emits an error notification whose text embeds the underlying failure
reason, closes the channel when one is open (and only then), and leaves
the controller Idle with the socket variable null and every input
control re-enabled. -/
theorem c5_submit_failure_resets (s : State) (errMsg : String)
    (hp : s.pendingFetch = true) :
    ∃ s',
      step s (Event.submitResult false errMsg) =
        some (s', Effect.notify NotifKind.error
            ("Error starting analysis: " ++ errMsg) ::
          (if s.websocket.isSome then [Effect.closeChannel] else [])) ∧
      specState s' = SpecState.idle ∧ s'.isAnalyzing = false ∧
      s'.buttonMode = BtnMode.analysis ∧ s'.websocket = none ∧
      s'.locationDisabled = false ∧ s'.selectAllDisabled = false ∧
      s'.checkboxesDisabled = false := by
  refine ⟨(resetForm { s with pendingFetch := false }).1,
    ?_, ?_, ?_, ?_, ?_, ?_, ?_, ?_⟩
  · simp [step, hp, resetForm]
  · simp [resetForm, updateRunAnalysisButton, specState]
  · simp [resetForm, updateRunAnalysisButton]
  · simp [resetForm, updateRunAnalysisButton]
  · simp [resetForm, updateRunAnalysisButton]
  · simp [resetForm, updateRunAnalysisButton]
  · simp [resetForm, updateRunAnalysisButton]
  · simp [resetForm, updateRunAnalysisButton]

/-- Witness for C5: an HTTP 500 failure at the concrete in-flight state
`demoRunning` leaves the controller Idle. -/
theorem c5_witness :
    (step demoRunning
        (Event.submitResult false "HTTP error! status: 500")).map
      (fun r => specState r.1) = some SpecState.idle := by
  obtain ⟨s', h, hidle, _⟩ :=
    c5_submit_failure_resets demoRunning "HTTP error! status: 500" rfl
  rw [h]
  simp [hidle]

/-- C6 counterexample: the claim says every run in one page instance is
tagged with a session identifier distinct from every other run's.  In
the trace `c6Events` two distinct runs are started (the first ends in a
submission failure and a reset to Idle, then a second run starts), yet
both submission effects carry the identical identifier `"session_1"` —
`generateSessionId` runs once at page load and is never re-invoked. -/
theorem c6_counterexample :
    (runTrace demoInit c6Events).map
        (fun r => (r.2.map Prod.snd).flatten.filterMap submitSid) =
      some ["session_1", "session_1"] := rfl

/-- C6 (amended): the session identifier is generated once per page
instance and shared by every run started in it: along any trace from the
page-load state, the stored identifier never changes and every channel
open, submission and results navigation carries exactly that page-load
identifier. -/
theorem c6_session_id_shared_per_page (sid : String) (vals : List String)
    (es : List Event) (s' : State) (log : List (Event × List Effect))
    (h : runTrace (initState sid vals) es = some (s', log)) :
    s'.sessionId = sid ∧
    ∀ p ∈ log, ∀ eff ∈ p.2, effectSidOk sid eff :=
  runTrace_sid (initState sid vals) es s' log h

/-- Witness for C6 on the two-run trace `c6Events`. -/
theorem c6_witness :
    ∃ s' log, runTrace demoInit c6Events = some (s', log) ∧
      s'.sessionId = "session_1" ∧
      ∀ p ∈ log, ∀ eff ∈ p.2, effectSidOk "session_1" eff := by
  rcases hEq : runTrace demoInit c6Events with _ | ⟨s', log⟩
  · exact absurd hEq (by decide)
  · obtain ⟨h1, h2⟩ :=
      c6_session_id_shared_per_page "session_1" ["flood"] c6Events s' log hEq
    exact ⟨s', log, rfl, h1, h2⟩

/-- C7: while the channel is open, handling the progress-kind messages
evolves the log by appends only — `analysis_start` and `analysis_error`
append exactly one entry at the end (so the existing entries keep their
positions and the order equals event arrival order), `progress_update`
and `all_analyses_complete` leave it untouched — except that
`analysis_complete` rewrites in place exactly the entry whose node
reference matches the controller-held `currentProgressItem` (matching is
by reference, not content): the length is preserved, every position
whose reference differs is unchanged, and every position carrying the
held reference now holds the completion message with success severity. -/
theorem c7_progress_log_append_or_rewrite (s : State) (c : Channel)
    (hw : s.websocket = some c) (ho : c.isOpen = true) :
    (∀ msg, ∃ e,
      (step s (Event.chanMessage (WsMessage.analysisStart msg))).map
        (fun r => r.1.progressLog) = some (s.progressLog ++ [e])) ∧
    (∀ msg, ∃ e,
      (step s (Event.chanMessage (WsMessage.analysisError msg))).map
        (fun r => r.1.progressLog) = some (s.progressLog ++ [e])) ∧
    (∀ cur tot msg,
      (step s (Event.chanMessage (WsMessage.progressUpdate cur tot msg))).map
        (fun r => r.1.progressLog) = some s.progressLog) ∧
    (∀ msg completed,
      (step s (Event.chanMessage
          (WsMessage.allAnalysesComplete msg completed))).map
        (fun r => r.1.progressLog) = some s.progressLog) ∧
    (∀ msg ref, s.currentProgressItem = some ref →
      (step s (Event.chanMessage (WsMessage.analysisComplete msg))).map
          (fun r => r.1.progressLog) =
        some (rewriteEntry s.progressLog ref msg) ∧
      (rewriteEntry s.progressLog ref msg).length = s.progressLog.length ∧
      (∀ i (h1 : i < s.progressLog.length)
          (h2 : i < (rewriteEntry s.progressLog ref msg).length),
        (s.progressLog.get ⟨i, h1⟩).1 ≠ ref →
          (rewriteEntry s.progressLog ref msg).get ⟨i, h2⟩ =
            s.progressLog.get ⟨i, h1⟩) ∧
      (∀ i (h1 : i < s.progressLog.length)
          (h2 : i < (rewriteEntry s.progressLog ref msg).length),
        (s.progressLog.get ⟨i, h1⟩).1 = ref →
          (rewriteEntry s.progressLog ref msg).get ⟨i, h2⟩ =
            (ref, ⟨msg, Severity.success⟩))) := by
  refine ⟨?_, ?_, ?_, ?_, ?_⟩
  · intro msg
    exact ⟨(s.nextRef, ⟨msg, Severity.info⟩),
      by simp [step, hw, ho, handleWebSocketMessage, showAnalysisProgress]⟩
  · intro msg
    exact ⟨(s.nextRef, ⟨msg, Severity.error⟩),
      by simp [step, hw, ho, handleWebSocketMessage, showAnalysisProgress]⟩
  · intro cur tot msg
    simp [step, hw, ho, handleWebSocketMessage, updateProgressBar]
  · intro msg completed
    simp [step, hw, ho, handleWebSocketMessage, handleAnalysisComplete]
  · intro msg ref hr
    refine ⟨?_, ?_, ?_, ?_⟩
    · simp [step, hw, ho, handleWebSocketMessage, markProgressAsCompleted, hr]
    · simp [rewriteEntry]
    · intro i h1 h2 hne
      rw [List.get_eq_getElem] at hne
      rw [List.get_eq_getElem, List.get_eq_getElem]
      simp [rewriteEntry, List.getElem_map, hne]
    · intro i h1 h2 heq
      rw [List.get_eq_getElem] at heq
      rw [List.get_eq_getElem]
      simp [rewriteEntry, List.getElem_map, heq]

/-- Witness for C7: at `demoWithLog` the completion event rewrites the
single referenced entry in place. -/
theorem c7_witness :
    (step demoWithLog
        (Event.chanMessage (WsMessage.analysisComplete "done"))).map
      (fun r => r.1.progressLog) =
      some [(0, ⟨"done", Severity.success⟩)] := by
  have h := ((c7_progress_log_append_or_rewrite demoWithLog
      ⟨"session_1", true⟩ rfl rfl).2.2.2.2 "done" 0 rfl).1
  exact h.trans (by rfl)

/-- C8: every `progress_update` message overwrites the bar state with
exactly the event's counters regardless of the previous bar state; the
displayed percentage is exactly `(current / total) * 100` with no bounds
clamping (with `total < current` it strictly exceeds 100), and it is not
monotonic: with the same positive total, a later event with a smaller
`current` displays a strictly smaller percentage. -/
theorem c8_progress_bar_exact_percentage (s : State) (c : Channel)
    (hw : s.websocket = some c) (ho : c.isOpen = true) :
    (∀ cur tot msg,
      (step s (Event.chanMessage (WsMessage.progressUpdate cur tot msg))).map
        (fun r => r.1.progressBar) = some (some ⟨cur, tot, msg⟩)) ∧
    (∀ b : BarState, displayedPercentage b = percentage b.current b.total) ∧
    (∀ c1 c2 tot : Nat, 0 < tot → c2 < c1 →
      percentage c2 tot < percentage c1 tot) ∧
    (∀ cur tot : Nat, 0 < tot → tot < cur → 100 < percentage cur tot) := by
  refine ⟨?_, fun b => rfl, ?_, ?_⟩
  · intro cur tot msg
    simp [step, hw, ho, handleWebSocketMessage, updateProgressBar]
  · intro c1 c2 tot ht hlt
    unfold percentage
    have ht' : (0 : ℚ) < tot := by exact_mod_cast ht
    have hlt' : (c2 : ℚ) < c1 := by exact_mod_cast hlt
    gcongr
  · intro cur tot ht hlt
    unfold percentage
    have ht' : (0 : ℚ) < tot := by exact_mod_cast ht
    have h1 : (1 : ℚ) < (cur : ℚ) / tot :=
      (one_lt_div ht').mpr (by exact_mod_cast hlt)
    nlinarith

/-- Witness for C8: at `demoRunning`, a `1/4` update sets the bar to the
event's counters, and its percentage strictly regresses from that of an
earlier `3/4` update. -/
theorem c8_witness :
    (step demoRunning
        (Event.chanMessage (WsMessage.progressUpdate 1 4 "m"))).map
      (fun r => r.1.progressBar) = some (some ⟨1, 4, "m"⟩) ∧
    percentage 1 4 < percentage 3 4 := by
  obtain ⟨h1, _, h3, _⟩ :=
    c8_progress_bar_exact_percentage demoRunning ⟨"session_1", true⟩ rfl rfl
  exact ⟨h1 1 4 "m", h3 3 1 4 (by norm_num) (by norm_num)⟩

/-- C9: a run requested from Idle with a non-empty trimmed location that
is not (case-insensitively) the supported value and a non-empty
selection corrects the location input in place to `"Narayanganj"`, emits
the warning notification, and proceeds: the channel is opened and the
submission call carries the corrected location. -/
theorem c9_unsupported_location_corrected (s : State)
    (hA : s.isAnalyzing = false) (hM : s.buttonMode = BtnMode.analysis)
    (hLoc : jsTrim s.location ≠ "") (hSel : selectedValues s ≠ [])
    (hNS : jsToLower (jsTrim s.location) ≠ "narayanganj") :
    ∃ s', runAnalysis s =
        (s', [Effect.notify NotifKind.warning unsupportedLocationMessage,
              Effect.openChannel s.sessionId,
              Effect.submit "Narayanganj" (selectedValues s) s.sessionId]) ∧
      s'.location = "Narayanganj" ∧ s'.isAnalyzing = true ∧
      s'.websocket = some ⟨s.sessionId, true⟩ := by
  refine ⟨{ s with
    location := "Narayanganj",
    isAnalyzing := true,
    websocket := some ⟨s.sessionId, true⟩,
    runBtnDisabled := true, statusVisible := true, statusSuccess := false,
    locationDisabled := true, selectAllDisabled := true,
    checkboxesDisabled := true,
    progressLog := [], progressBar := none,
    pendingFetch := true }, ?_, rfl, rfl, rfl⟩
  unfold runAnalysis
  simp [hA, hM, hLoc, hSel, hNS, startAnalysis, connectWebSocket]
  rfl

/-- Witness for C9 at a concrete idle state whose location input holds
`"Dhaka"`. -/
theorem c9_witness :
    (runAnalysis demoWrongLocation).2 =
      [Effect.notify NotifKind.warning unsupportedLocationMessage,
       Effect.openChannel "session_1",
       Effect.submit "Narayanganj" ["flood"] "session_1"] ∧
    (runAnalysis demoWrongLocation).1.location = "Narayanganj" := by
  obtain ⟨s', h, hL, _⟩ :=
    c9_unsupported_location_corrected demoWrongLocation rfl rfl
      (by decide) (by decide) (by decide)
  exact ⟨by rw [h]; rfl, by rw [h]; exact hL⟩

/-- C10 counterexample: the claim says handling an `analysis_complete`
is only safe when an `analysis_start` was handled earlier in the same
session, and faults otherwise.  In the trace `c10Events` the second
session handles an `analysis_complete` as its very first channel message
— no `analysis_start` of the same session precedes it — yet the handler
returns normally (the whole trace evaluates to `some`): the stale
reference left by the first session's `analysis_start` survives the
reset, and the rewrite lands on the detached node, leaving the (cleared)
log empty. -/
theorem c10_counterexample :
    (runTrace demoInit c10Events).isSome = true ∧
    (runTrace demoInit c10Events).map (fun r => r.1.progressLog) = some [] :=
  ⟨rfl, rfl⟩

/-- C10 (amended): handling `analysis_complete` faults exactly when no
`analysis_start` was ever handled in the page instance — the in-flight
reference is set by `analysis_start` and never cleared, not even by a
reset.  Along any trace from the page-load state containing no
`analysis_start` message, the reference is still unset and an
`analysis_complete` arriving on an open channel makes the handler throw
(`step` returns `none`); conversely, whenever the reference is set, the
handler returns normally. -/
theorem c10_complete_without_start_faults (sid : String)
    (vals : List String) (es : List Event)
    (s' : State) (log : List (Event × List Effect))
    (h : runTrace (initState sid vals) es = some (s', log))
    (hNoStart : ∀ m, Event.chanMessage (WsMessage.analysisStart m) ∉ es) :
    s'.currentProgressItem = none ∧
    (∀ msg c, s'.websocket = some c → c.isOpen = true →
      step s' (Event.chanMessage (WsMessage.analysisComplete msg)) = none) ∧
    (∀ (t : State) (r : Nat) (msg : String), t.currentProgressItem = some r →
      (step t (Event.chanMessage (WsMessage.analysisComplete msg))).isSome =
        true) := by
  have hnone : s'.currentProgressItem = none :=
    (runTrace_noStart_currentItem _ es s' log h hNoStart).trans rfl
  refine ⟨hnone, ?_, ?_⟩
  · intro msg c hw ho
    simp [step, hw, ho, handleWebSocketMessage, markProgressAsCompleted, hnone]
  · intro t r msg hr
    cases hw : t.websocket with
    | none => simp [step, hw]
    | some c =>
        by_cases ho : c.isOpen
        · simp [step, hw, ho, handleWebSocketMessage,
            markProgressAsCompleted, hr]
        · simp [step, hw, ho]

/-- Witness for C10: after a trace with no `analysis_start`, the
in-flight reference is unset and an `analysis_complete` on the open
channel faults. -/
theorem c10_witness :
    step demoRunning (Event.chanMessage (WsMessage.analysisComplete "done")) =
      none := by
  have h := c10_complete_without_start_faults "session_1" ["flood"]
      [Event.setCheckbox 0 true, Event.clickRun] demoRunning
      [(Event.setCheckbox 0 true, []),
       (Event.clickRun,
        [Effect.openChannel "session_1",
         Effect.submit "Narayanganj" ["flood"] "session_1"])]
      (by rfl) (by intro m; simp)
  exact h.2.1 "done" ⟨"session_1", true⟩ rfl rfl

end NasaClient
